import Mathlib

/-!
Verification development for the agent-gaia streaming multi-provider chat
orchestrator.  The definitions below are a shallow embedding of the Python
source: `src/core/llm_router.py` (backup chain), `src/api/routes/chat.py`
(conversation history, context assembly, the streaming turn `process_chat`,
the WebSocket handler) and `src/utils/token_counter.py` (usage tracking).
-/

namespace AgentGaia

/-! ## Backup chain (`LLMRouter._try_backup`, llm_router.py lines 121-164)

Python computes `idx = self.backup_chain.index(failed_provider)` (first
occurrence; `ValueError` is caught and `idx = -1` when absent) and then
iterates over `self.backup_chain[idx + 1:]`, calling `get_llm` on each
candidate until one succeeds; if none does it raises
`RuntimeError("All backup providers failed")`. -/

/-- Candidate providers inspected by `_try_backup`: the slice of the chain
strictly after the first occurrence of the failed provider (the whole chain
when the failed provider is absent, mirroring `idx = -1`). -/
def tryBackupCandidates (chain : List String) (failed : String) : List String :=
  if failed ∈ chain then chain.drop (chain.indexOf failed + 1) else chain

/-- The providers actually tried by the `for backup in ...` loop: each
candidate in order, stopping after the first one `ok` (i.e. whose
`get_llm` call succeeds). -/
def backupAttempts (candidates : List String) (ok : String → Bool) : List String :=
  match candidates with
  | [] => []
  | p :: rest => if ok p then [p] else p :: backupAttempts rest ok

/-- Result of the `_try_backup` loop: the first candidate that succeeds,
`none` when the chain is exhausted (`RuntimeError`). -/
def tryBackupLoop (candidates : List String) (ok : String → Bool) : Option String :=
  match candidates with
  | [] => none
  | p :: rest => if ok p then some p else tryBackupLoop rest ok

/-! ## Messages and the conversation log (chat.py) -/

/-- One part of a LangChain multimodal content list:
`{"type": "text", "text": t}` or `{"type": "image_url", ...}`. -/
inductive MMPart
  | textPart (t : String)
  | imagePart (url : String)
  deriving DecidableEq

/-- Message content: a plain string (`HumanMessage(content=str)`) or a list
of multimodal parts. -/
inductive Content
  | text (s : String)
  | parts (l : List MMPart)
  deriving DecidableEq

/-- LangChain message roles used by the orchestrator. -/
inductive Role
  | system
  | user
  | assistant
  deriving DecidableEq

/-- A conversation message. -/
structure Msg where
  role : Role
  content : Content
  deriving DecidableEq

/-- chat.py line 63. -/
def MAX_HISTORY_MESSAGES : Nat := 50

/-- chat.py lines 431-435: `conversation_history.append(...)` followed by
`if len(conversation_history) > MAX_HISTORY_MESSAGES:
   del conversation_history[:-MAX_HISTORY_MESSAGES]`
(keep only the newest `MAX_HISTORY_MESSAGES` entries). -/
def appendAndTrim (hist : List Msg) (m : Msg) : List Msg :=
  let h := hist ++ [m]
  if MAX_HISTORY_MESSAGES < h.length then
    h.drop (h.length - MAX_HISTORY_MESSAGES)
  else h

/-- chat.py line 526: `conversation_history.append(AIMessage(content=full_response))`
— no trimming happens at this mutation site. -/
def appendAssistant (hist : List Msg) (resp : String) : List Msg :=
  hist ++ [⟨Role.assistant, Content.text resp⟩]

theorem appendAndTrim_eq (hist : List Msg) (m : Msg) :
    appendAndTrim hist m =
      hist.drop (hist.length + 1 - MAX_HISTORY_MESSAGES) ++ [m] := by
  unfold appendAndTrim
  by_cases h : MAX_HISTORY_MESSAGES < (hist ++ [m]).length
  · simp only [h, if_true]
    have hlen : (hist ++ [m]).length = hist.length + 1 := by simp
    rw [hlen]
    have hle : hist.length + 1 - MAX_HISTORY_MESSAGES ≤ hist.length := by
      have : 1 ≤ MAX_HISTORY_MESSAGES := by norm_num [MAX_HISTORY_MESSAGES]
      omega
    exact List.drop_append_of_le_length hle
  · simp only [h, if_false]
    have hlen : (hist ++ [m]).length = hist.length + 1 := by simp
    have h0 : hist.length + 1 - MAX_HISTORY_MESSAGES = 0 := by
      simp at h; omega
    rw [h0]
    simp

theorem appendAndTrim_length_le (hist : List Msg) (m : Msg) :
    (appendAndTrim hist m).length ≤ MAX_HISTORY_MESSAGES := by
  unfold appendAndTrim
  by_cases h : MAX_HISTORY_MESSAGES < (hist ++ [m]).length
  · simp only [h, if_true, List.length_drop]
    omega
  · simp only [h, if_false]
    simp only [List.length_append, List.length_singleton] at h ⊢
    omega

/-! ### Association lists standing in for Python dicts -/

/-- Python `dict.get(k)` on an association list. -/
def lookupEntry {α : Type} : List (String × α) → String → Option α
  | [], _ => none
  | (k', v) :: rest, k => if k' = k then some v else lookupEntry rest k

/-- Replace the value stored under `k`, appending a fresh entry when the key
is absent (Python `dict.__setitem__`). -/
def setEntry {α : Type} (l : List (String × α)) (k : String) (v : α) :
    List (String × α) :=
  match l with
  | [] => [(k, v)]
  | (k', v') :: rest =>
    if k' = k then (k, v) :: rest else (k', v') :: setEntry rest k v

/-- Python `dict.pop(k, None)` / `del d[k]`. -/
def eraseEntry {α : Type} : List (String × α) → String → List (String × α)
  | [], _ => []
  | (k', v) :: rest, k =>
    if k' = k then eraseEntry rest k else (k', v) :: eraseEntry rest k

/-! ## Context assembly (`_build_message_content`, chat.py lines 235-290,
and the context prepends of `process_chat`, lines 417-428) -/

/-- The fields of `ProcessedFile` (file_processor.py) consumed by
`_build_message_content`. -/
structure FileData where
  hasImage : Bool
  hasText : Bool
  mimeType : String
  imageBase64 : String
  textContent : String
  deriving DecidableEq

/-- The `for filename in attachments` loop of `_build_message_content`
(chat.py lines 256-277): unknown filenames are skipped; image files add an
`image_url` part plus an `[Image: ...]` text label; text files add a
`[File: ...]` labelled block. -/
def collectAttachmentParts (files : List (String × FileData)) :
    List String → List String × List MMPart
  | [] => ([], [])
  | f :: rest =>
    let (tc, ip) := collectAttachmentParts files rest
    match lookupEntry files f with
    | none => (tc, ip)
    | some fd =>
      if fd.hasImage then
        (("[Image: " ++ f ++ "]") :: tc,
         MMPart.imagePart ("data:" ++ fd.mimeType ++ ";base64," ++ fd.imageBase64) :: ip)
      else if fd.hasText then
        (("[File: " ++ f ++ "]\n" ++ fd.textContent) :: tc, ip)
      else (tc, ip)

/-- Python `_build_message_content` (chat.py lines 235-290): returns the plain text
form for permanent history, and the multimodal content list (text part first,
then image parts) when any image attachment is present. -/
def buildMessageContent (message : String) (attachments : List String)
    (files : List (String × FileData)) : String × Option (List MMPart) :=
  if attachments.isEmpty then (message, none)
  else
    let (textContext, imageParts) := collectAttachmentParts files attachments
    let textForHistory :=
      if textContext.isEmpty then message
      else String.intercalate "\n\n" textContext ++ "\n\n---\n\n" ++ message
    if imageParts.isEmpty then (textForHistory, none)
    else (textForHistory, some (MMPart.textPart textForHistory :: imageParts))

/-- Python `multimodal_content[0]["text"] = text_for_history` (chat.py lines 421,
428): rewrite the leading text part. -/
def updateTextPart (mm : List MMPart) (t : String) : List MMPart :=
  match mm with
  | MMPart.textPart _ :: rest => MMPart.textPart t :: rest
  | other => other

/-- chat.py lines 417-421: `if rag_context:` prepend the RAG context with a
`---` delimiter and refresh the multimodal text part. -/
def applyRagContext (ragContext t : String) (mm : Option (List MMPart)) :
    String × Option (List MMPart) :=
  if ragContext = "" then (t, mm)
  else
    let t2 := ragContext ++ "\n\n---\n\n" ++ t
    (t2, mm.map (fun l => updateTextPart l t2))

/-- chat.py lines 423-428: `if search_context:` prepend the web-search
context (with the `사용자 질문:` marker) and refresh the multimodal text
part. -/
def applySearchContext (searchContext t : String) (mm : Option (List MMPart)) :
    String × Option (List MMPart) :=
  if searchContext = "" then (t, mm)
  else
    let t2 := searchContext ++ "\n\n---\n\n사용자 질문: " ++ t
    (t2, mm.map (fun l => updateTextPart l t2))

/-- The full per-turn content assembly: attachments, then the RAG prepend,
then the web-search prepend — exactly the order of chat.py lines 412-428. -/
def assembleTurn (message : String) (attachments : List String)
    (files : List (String × FileData)) (ragContext searchContext : String) :
    String × Option (List MMPart) :=
  let (t0, mm0) := buildMessageContent message attachments files
  let (t1, mm1) := applyRagContext ragContext t0 mm0
  applySearchContext searchContext t1 mm1

/-! ## Python `str.strip()` (the empty-input guard, chat.py line 314) -/

/-- The ASCII whitespace stripped by Python's `str.strip()`. -/
def pyIsSpace (c : Char) : Bool :=
  c == ' ' || c == '\t' || c == '\n' || c == '\r' || c == '\x0b' || c == '\x0c'

/-- Python `message.strip()`. -/
def pyStrip (s : String) : String :=
  String.mk (((s.data.dropWhile pyIsSpace).reverse.dropWhile pyIsSpace).reverse)

/-! ## Usage tracking (token_counter.py)

Monetary costs are modelled with `ℚ`; the model adds and compares the same
values the code adds, so the accounting identities are arithmetic-exact. -/

/-- Python `TokenUsage` (token_counter.py lines 15-25): one immutable per-turn
usage record. -/
structure TokenUsage where
  provider : String
  model : String
  inputTokens : Nat
  outputTokens : Nat
  totalTokens : Nat
  inputCost : ℚ
  outputCost : ℚ
  totalCost : ℚ
  deriving DecidableEq

/-- Python `SessionUsage` (token_counter.py lines 28-51): per-session running
totals. -/
structure SessionUsage where
  totalInputTokens : Nat
  totalOutputTokens : Nat
  totalTokens : Nat
  totalCost : ℚ
  messageCount : Nat
  deriving DecidableEq

/-- The zero totals a fresh `SessionUsage()` starts with. -/
def SessionUsage.empty : SessionUsage := ⟨0, 0, 0, 0, 0⟩

/-- Python `SessionUsage.add` (lines 37-43). -/
def SessionUsage.add (s : SessionUsage) (u : TokenUsage) : SessionUsage :=
  { totalInputTokens := s.totalInputTokens + u.inputTokens
    totalOutputTokens := s.totalOutputTokens + u.outputTokens
    totalTokens := s.totalTokens + u.totalTokens
    totalCost := s.totalCost + u.totalCost
    messageCount := s.messageCount + 1 }

/-- The mutable state of `TokenCounter`: the `_sessions` and `_last_usage`
dicts (token_counter.py lines 74-76). -/
structure TokenCounterState where
  sessions : List (String × SessionUsage)
  lastUsage : List (String × TokenUsage)
  deriving DecidableEq

/-- The freshly constructed `TokenCounter()`. -/
def TokenCounterState.empty : TokenCounterState := ⟨[], []⟩

/-- Python `TokenCounter.get_session` (lines 78-82): get-or-create; returns the
entry and the possibly extended state. -/
def TokenCounterState.getSession (st : TokenCounterState) (sid : String) :
    SessionUsage × TokenCounterState :=
  match lookupEntry st.sessions sid with
  | some s => (s, st)
  | none => (SessionUsage.empty,
             { st with sessions := setEntry st.sessions sid SessionUsage.empty })

/-- Python `TokenCounter.reset_session` (lines 88-94): zero the totals only when
the entry exists (keeping it in the map) and forget the last usage. -/
def TokenCounterState.resetSession (st : TokenCounterState) (sid : String) :
    TokenCounterState :=
  { sessions :=
      if (lookupEntry st.sessions sid).isSome then
        setEntry st.sessions sid SessionUsage.empty
      else st.sessions
    lastUsage := eraseEntry st.lastUsage sid }

/-- Python `TokenCounter.remove_session` (lines 96-100): drop both entries. -/
def TokenCounterState.removeSession (st : TokenCounterState) (sid : String) :
    TokenCounterState :=
  { sessions := eraseEntry st.sessions sid
    lastUsage := eraseEntry st.lastUsage sid }

/-- The state mutation at the end of `TokenCounter.track_usage`
(lines 241-244): record the last usage, then `get_session(sid).add(usage)`. -/
def TokenCounterState.trackUsage (st : TokenCounterState) (sid : String)
    (u : TokenUsage) : TokenCounterState :=
  let prev := (lookupEntry st.sessions sid).getD SessionUsage.empty
  { sessions := setEntry st.sessions sid (prev.add u)
    lastUsage := setEntry st.lastUsage sid u }

/-- The running totals visible for `sid` (a missing entry reads as zero,
matching what `get_session` would create). -/
def TokenCounterState.getEntry (st : TokenCounterState) (sid : String) :
    SessionUsage :=
  (lookupEntry st.sessions sid).getD SessionUsage.empty

/-- Python `TokenCounter.count_messages` (lines 120-135): tokens of each message's
content plus a fixed overhead of 4 per message, via an external encoder
`enc`. -/
def countMessages (enc : Content → Nat) (msgs : List Msg) : Nat :=
  msgs.foldl (fun total m => total + enc m.content + 4) 0

/-- The computation part of `TokenCounter.track_usage` (lines 217-239):
input tokens from the full message list when one is given and non-empty
(Python truthiness of `messages`), else from the raw input text; costs from
the per-1k rates. -/
def mkTokenUsage (enc : Content → Nat) (provider model : String)
    (inputText outputText : String) (messages : Option (List Msg))
    (rates : ℚ × ℚ) : TokenUsage :=
  let inputTokens : Nat :=
    match messages with
    | some ms => if ms.isEmpty then enc (Content.text inputText)
                 else countMessages enc ms
    | none => enc (Content.text inputText)
  let outputTokens := enc (Content.text outputText)
  let inputCost := (inputTokens : ℚ) / 1000 * rates.1
  let outputCost := (outputTokens : ℚ) / 1000 * rates.2
  { provider := provider
    model := model
    inputTokens := inputTokens
    outputTokens := outputTokens
    totalTokens := inputTokens + outputTokens
    inputCost := inputCost
    outputCost := outputCost
    totalCost := inputCost + outputCost }

/-! ### Association-list lemmas -/

theorem lookupEntry_setEntry_self {α : Type} (l : List (String × α)) (k : String)
    (v : α) : lookupEntry (setEntry l k v) k = some v := by
  induction l with
  | nil => simp [setEntry, lookupEntry]
  | cons e rest ih =>
    obtain ⟨k', v'⟩ := e
    by_cases h : k' = k
    · subst h
      simp [setEntry, lookupEntry]
    · simp [setEntry, lookupEntry, h, ih]

theorem lookupEntry_setEntry_ne {α : Type} (l : List (String × α)) (k k' : String)
    (v : α) (h : k' ≠ k) : lookupEntry (setEntry l k v) k' = lookupEntry l k' := by
  induction l with
  | nil => simp [setEntry, lookupEntry, Ne.symm h]
  | cons e rest ih =>
    obtain ⟨k₀, v₀⟩ := e
    by_cases h0 : k₀ = k
    · subst h0
      simp [setEntry, lookupEntry, Ne.symm h]
    · simp [setEntry, lookupEntry, h0, ih]

theorem lookupEntry_eraseEntry_self {α : Type} (l : List (String × α))
    (k : String) : lookupEntry (eraseEntry l k) k = none := by
  induction l with
  | nil => simp [eraseEntry, lookupEntry]
  | cons e rest ih =>
    obtain ⟨k₀, v₀⟩ := e
    by_cases h : k₀ = k
    · simp [eraseEntry, h, ih]
    · simp [eraseEntry, lookupEntry, h, ih]

/-! ## The streaming turn (`process_chat`, chat.py lines 293-584)

External collaborators (web search, RAG, the conversation repository, the
LLM backends, the tokenizer) and the output socket are modelled as an
environment record; the function below mirrors the control flow of
`process_chat` over it.  Connection liveness is observed once per streamed
chunk — exactly where the code calls `is_ws_connected` — and `safe_send`
delivers an event only while the socket is open. -/

/-- chat.py lines 58-60. -/
def SYSTEM_PROMPT : String :=
  "당신은 유능한 AI 어시스턴트입니다. 사용자의 질문에 친절하고 정확하게 답변해주세요."

/-- Python `SystemMessage(content=SYSTEM_PROMPT)`. -/
def sysMsg : Msg := ⟨Role.system, Content.text SYSTEM_PROMPT⟩

/-- Outbound events of one turn (chat.py). -/
inductive Event
  | searching (provider query : String)
  | searchResults (provider query : String)
  | ragSearching (provider : String)
  | ragResults (provider : String)
  | conversationCreated (provider convId : String)
  | backupSwitch (original backup reason : String)
  | streaming (provider chunk : String)
  | usage (provider : String) (u : TokenUsage)
  | complete (provider : String)
  | error (provider err : String)
  deriving DecidableEq

/-- Connection liveness: `none` = the socket stays open; `some n` = the
n-th connection observation (0-based) and every later one see it closed.
Observations are counted per streamed chunk; everything before the stream
is observation 0. -/
def connOpen (life : Option Nat) (k : Nat) : Bool :=
  match life with
  | none => true
  | some n => k < n

/-- Python `safe_send` (chat.py lines 35-43): the events reach the caller only
while the socket is open. -/
def sendIf (b : Bool) (evs : List Event) : List Event :=
  if b then evs else []

/-- Result of one streaming loop. -/
structure StreamResult where
  idx : Nat
  acc : String
  events : List Event
  disconnected : Bool
  deriving DecidableEq

/-- A streaming loop (chat.py lines 476-486 for the primary provider,
509-522 for the backup): per chunk, check the connection — abandoning the
turn when it is closed — then accumulate into `full_response` and send one
`streaming` event. -/
def streamChunks (life : Option Nat) (provider : String) :
    List String → Nat → String → List Event → StreamResult
  | [], idx, acc, evs => ⟨idx, acc, evs, false⟩
  | c :: rest, idx, acc, evs =>
    if connOpen life idx then
      streamChunks life provider rest (idx + 1) (acc ++ c)
        (evs ++ [Event.streaming provider c])
    else ⟨idx, acc, evs, true⟩

/-- Python `full_response` accumulated over a chunk list. -/
def joinChunks (l : List String) : String := l.foldl (· ++ ·) ""

/-- Behaviour of the external collaborators and the socket during one turn. -/
structure TurnEnv where
  /-- Python `detect_search_intent(message)`: the query when intent is detected. -/
  searchIntent : Option String
  /-- Python `search_response.has_results`. -/
  searchHasResults : Bool
  /-- Python `search_response.to_context()`. -/
  searchContext : String
  /-- Python `settings.rag.enabled`. -/
  ragEnabled : Bool
  /-- Python `rag_response.success and rag_response.results` (errors are caught). -/
  ragSuccess : Bool
  /-- Python `rag_service.format_context(rag_response.results)`. -/
  ragContext : String
  /-- The `uploaded_files` store consulted by `_build_message_content`. -/
  uploadedFiles : List (String × FileData)
  /-- Python `ConversationRepository.create_conversation` result (`none`: the
  repository failed; persistence failures are swallowed). -/
  newConvId : Option String
  /-- Chunks yielded by the primary provider's stream before it ends. -/
  primaryChunks : List String
  /-- Whether the primary stream raises after yielding its chunks. -/
  primaryFails : Bool
  /-- Python `str(e)` of the primary failure, used as the `backup_switch` reason. -/
  primaryError : String
  /-- Python `_try_backup` outcome: backup provider name and its chunks, or `none`
  when every backup fails and `RuntimeError` is raised. -/
  backupOutcome : Option (String × List String)
  /-- Whether the backup stream raises after yielding its chunks. -/
  backupStreamFails : Bool
  /-- Python `str(e)` of the backup stream failure. -/
  backupStreamError : String
  /-- Socket liveness, see `connOpen`. -/
  connLife : Option Nat
  /-- Python `settings.llm.models`. -/
  models : List (String × String)
  /-- The tiktoken encoder behaviour (`count_tokens` per content). -/
  encode : Content → Nat
  /-- Per-1k input/output cost rates resolved by `calculate_cost`. -/
  costRates : ℚ × ℚ

/-- The module-level mutable state shared by turns (chat.py lines 49-63 and
the token counter). -/
structure ChatGlobals where
  history : List Msg
  convId : Option String
  counter : TokenCounterState

/-- Observable outcome of one turn: delivered events, the new shared state,
the request actually handed to the LLM backend, and whether the turn was
abandoned because the socket closed. -/
structure TurnOutcome where
  events : List Event
  history : List Msg
  counter : TokenCounterState
  convId : Option String
  request : List Msg
  disconnected : Bool

/-- chat.py lines 325-365: the web-search context is non-empty only when an
intent with a non-empty query was detected and the search had results. -/
def effectiveSearchContext (env : TurnEnv) : String :=
  match env.searchIntent with
  | some q =>
    if q = "" then "" else if env.searchHasResults then env.searchContext else ""
  | none => ""

/-- chat.py lines 367-410: the RAG context is non-empty only when RAG is
enabled and the search succeeded with results. -/
def effectiveRagContext (env : TurnEnv) : String :=
  if env.ragEnabled then (if env.ragSuccess then env.ragContext else "") else ""

/-- The turn's assembled content: attachments, then the RAG prepend, then
the web-search prepend (chat.py lines 412-428). -/
def turnAssembly (env : TurnEnv) (message : String) (attachments : List String) :
    String × Option (List MMPart) :=
  assembleTurn message attachments env.uploadedFiles
    (effectiveRagContext env) (effectiveSearchContext env)

/-- The plain-text form stored in history and sent to the backend. -/
def turnText (env : TurnEnv) (message : String) (attachments : List String) :
    String :=
  (turnAssembly env message attachments).1

/-- The in-flight multimodal form, when image attachments are present. -/
def turnMM (env : TurnEnv) (message : String) (attachments : List String) :
    Option (List MMPart) :=
  (turnAssembly env message attachments).2

/-- The user message permanently appended to the conversation log
(chat.py line 431). -/
def turnUserMsg (env : TurnEnv) (message : String) (attachments : List String) :
    Msg :=
  ⟨Role.user, Content.text (turnText env message attachments)⟩

/-- Events of the web-search block (chat.py lines 325-360), delivered at
connection observation 0. -/
def searchEvents (env : TurnEnv) (provider : String) : List Event :=
  match env.searchIntent with
  | some q =>
    if q = "" then []
    else sendIf (connOpen env.connLife 0)
      [Event.searching provider q, Event.searchResults provider q]
  | none => []

/-- Events of the RAG block (chat.py lines 367-397). -/
def ragEvents (env : TurnEnv) (provider : String) : List Event :=
  if env.ragEnabled then
    sendIf (connOpen env.connLife 0) [Event.ragSearching provider] ++
      (if env.ragSuccess then
        sendIf (connOpen env.connLife 0) [Event.ragResults provider]
      else [])
  else []

/-- Python `settings.llm.models.get(actual_provider, "unknown")` (chat.py
line 530). -/
def resolveModelName (models : List (String × String)) (provider : String) :
    String :=
  (lookupEntry models provider).getD "unknown"

/-- chat.py lines 524-578: when the accumulated response is non-empty,
append it as a single assistant message, track usage and send the `usage`
event; in every case attempt the `complete` event. -/
def finishTurn (g : ChatGlobals) (env : TurnEnv) (message sessionId : String)
    (actualProvider : String) (request : List Msg) (hist1 : List Msg)
    (convId1 : Option String) (preEvents : List Event) (fullResponse : String)
    (idx : Nat) : TurnOutcome :=
  if fullResponse = "" then
    { events := preEvents ++
        sendIf (connOpen env.connLife idx) [Event.complete actualProvider]
      history := hist1
      counter := g.counter
      convId := convId1
      request := request
      disconnected := false }
  else
    let usage := mkTokenUsage env.encode actualProvider
      (resolveModelName env.models actualProvider) message fullResponse
      (some request) env.costRates
    { events := preEvents
        ++ sendIf (connOpen env.connLife idx) [Event.usage actualProvider usage]
        ++ sendIf (connOpen env.connLife idx) [Event.complete actualProvider]
      history := appendAssistant hist1 fullResponse
      counter := g.counter.trackUsage sessionId usage
      convId := convId1
      request := request
      disconnected := false }

/-- chat.py lines 437-451: when no conversation exists yet, try to create
one (an event is sent only when the repository succeeds). -/
def convCreatedEvents (env : TurnEnv) (provider : String)
    (convId : Option String) : List Event :=
  match convId with
  | some _ => []
  | none =>
    match env.newConvId with
    | some nid => sendIf (connOpen env.connLife 0) [Event.conversationCreated provider nid]
    | none => []

/-- The conversation id after the create step. -/
def nextConvId (env : TurnEnv) (convId : Option String) : Option String :=
  match convId with
  | some cid => some cid
  | none => env.newConvId

/-- All events delivered before streaming starts. -/
def preStreamEvents (env : TurnEnv) (provider : String)
    (convId : Option String) : List Event :=
  searchEvents env provider ++ ragEvents env provider ++
    convCreatedEvents env provider convId

/-- The conversation log right after the user message is appended and
trimmed (chat.py lines 431-435). -/
def turnHistory (g : ChatGlobals) (env : TurnEnv) (message : String)
    (attachments : List String) : List Msg :=
  appendAndTrim g.history (turnUserMsg env message attachments)

/-- chat.py lines 461-469: the outgoing request — when a multimodal form
exists it replaces only the most recent message, for this request only. -/
def buildRequest (env : TurnEnv) (message : String) (attachments : List String)
    (hist1 : List Msg) : List Msg :=
  match turnMM env message attachments with
  | some mmParts => sysMsg :: (hist1.dropLast ++ [⟨Role.user, Content.parts mmParts⟩])
  | none => sysMsg :: hist1

/-- chat.py lines 471-578: stream from the primary provider, falling back
through `_try_backup` on failure, then commit the accumulated response. -/
def runStream (g : ChatGlobals) (env : TurnEnv)
    (provider message sessionId : String) (hist1 request : List Msg)
    (pre : List Event) (convId1 : Option String) : TurnOutcome :=
  let sr := streamChunks env.connLife provider env.primaryChunks 0 "" []
  if sr.disconnected then
    ⟨pre ++ sr.events, hist1, g.counter, convId1, request, true⟩
  else if env.primaryFails then
    if connOpen env.connLife sr.idx then
      match env.backupOutcome with
      | none =>
        ⟨pre ++ sr.events ++
            sendIf (connOpen env.connLife sr.idx)
              [Event.error provider "All backup providers failed"],
          hist1, g.counter, convId1, request, false⟩
      | some (backupName, backupChunks) =>
        let switchEv := sendIf (connOpen env.connLife sr.idx)
          [Event.backupSwitch provider backupName env.primaryError]
        let br := streamChunks env.connLife backupName backupChunks sr.idx sr.acc []
        if br.disconnected then
          ⟨pre ++ sr.events ++ switchEv ++ br.events,
            hist1, g.counter, convId1, request, true⟩
        else if env.backupStreamFails then
          ⟨pre ++ sr.events ++ switchEv ++ br.events ++
              sendIf (connOpen env.connLife br.idx)
                [Event.error provider env.backupStreamError],
            hist1, g.counter, convId1, request, false⟩
        else
          finishTurn g env message sessionId backupName request hist1 convId1
            (pre ++ sr.events ++ switchEv ++ br.events) br.acc br.idx
    else
      ⟨pre ++ sr.events, hist1, g.counter, convId1, request, true⟩
  else
    finishTurn g env message sessionId provider request hist1 convId1
      (pre ++ sr.events) sr.acc sr.idx

/-- The whole of `process_chat` (chat.py lines 293-584). -/
def processChat (g : ChatGlobals) (env : TurnEnv) (provider message : String)
    (attachments : List String) (sessionId : String) : TurnOutcome :=
  if (pyStrip message).isEmpty && attachments.isEmpty then
    { events := sendIf (connOpen env.connLife 0) [Event.error provider "Empty message"]
      history := g.history
      counter := g.counter
      convId := g.convId
      request := []
      disconnected := false }
  else
    let hist1 := turnHistory g env message attachments
    runStream g env provider message sessionId hist1
      (buildRequest env message attachments hist1)
      (preStreamEvents env provider g.convId)
      (nextConvId env g.convId)

/-- The `WebSocketDisconnect` handler of `websocket_chat` (chat.py lines
225-228): on disconnect the session's usage entry is removed. -/
def disconnectCleanup (st : TokenCounterState) (sessionId : String) :
    TokenCounterState :=
  st.removeSession sessionId

/-! ### Event classification and stream lemmas -/

/-- Recognises `error` events. -/
def isErrorEvent : Event → Bool
  | Event.error _ _ => true
  | _ => false

/-- Recognises `complete` events. -/
def isCompleteEvent : Event → Bool
  | Event.complete _ => true
  | _ => false

/-- Recognises the informational events that precede streaming. -/
def isPreEvent : Event → Bool
  | Event.searching _ _ => true
  | Event.searchResults _ _ => true
  | Event.ragSearching _ => true
  | Event.ragResults _ => true
  | Event.conversationCreated _ _ => true
  | _ => false

theorem isPreEvent_not_error (e : Event) (h : isPreEvent e = true) :
    isErrorEvent e = false := by
  cases e <;> simp_all [isPreEvent, isErrorEvent]

theorem isPreEvent_not_complete (e : Event) (h : isPreEvent e = true) :
    isCompleteEvent e = false := by
  cases e <;> simp_all [isPreEvent, isCompleteEvent]

theorem searchEvents_pre (env : TurnEnv) (provider : String) :
    ∀ e ∈ searchEvents env provider, isPreEvent e = true := by
  intro e h
  unfold searchEvents sendIf at h
  rcases hi : env.searchIntent with _ | q <;> simp only [hi] at h
  · simp at h
  · by_cases hq : q = ""
    · simp [hq] at h
    · rw [if_neg hq] at h
      by_cases hb : connOpen env.connLife 0 = true
      · rw [if_pos hb] at h
        rcases List.mem_cons.1 h with rfl | h
        · rfl
        · rcases List.mem_cons.1 h with rfl | h
          · rfl
          · simp at h
      · rw [if_neg hb] at h
        simp at h

theorem ragEvents_pre (env : TurnEnv) (provider : String) :
    ∀ e ∈ ragEvents env provider, isPreEvent e = true := by
  intro e h
  unfold ragEvents sendIf at h
  by_cases hr : env.ragEnabled = true
  · rw [if_pos hr] at h
    rcases List.mem_append.1 h with h | h
    · by_cases hb : connOpen env.connLife 0 = true
      · rw [if_pos hb] at h
        rcases List.mem_cons.1 h with rfl | h
        · rfl
        · simp at h
      · rw [if_neg hb] at h
        simp at h
    · by_cases hs : env.ragSuccess = true
      · rw [if_pos hs] at h
        by_cases hb : connOpen env.connLife 0 = true
        · rw [if_pos hb] at h
          rcases List.mem_cons.1 h with rfl | h
          · rfl
          · simp at h
        · rw [if_neg hb] at h
          simp at h
      · rw [if_neg hs] at h
        simp at h
  · rw [if_neg hr] at h
    simp at h

theorem convCreatedEvents_pre (env : TurnEnv) (provider : String)
    (convId : Option String) :
    ∀ e ∈ convCreatedEvents env provider convId, isPreEvent e = true := by
  intro e h
  unfold convCreatedEvents sendIf at h
  rcases convId with _ | cid
  · rcases hn : env.newConvId with _ | nid <;> simp only [hn] at h
    · simp at h
    · by_cases hb : connOpen env.connLife 0 = true
      · rw [if_pos hb] at h
        rcases List.mem_cons.1 h with rfl | h
        · rfl
        · simp at h
      · rw [if_neg hb] at h
        simp at h
  · simp at h

theorem preStreamEvents_isPre (env : TurnEnv) (provider : String)
    (convId : Option String) :
    ∀ e ∈ preStreamEvents env provider convId, isPreEvent e = true := by
  intro e h
  unfold preStreamEvents at h
  rcases List.mem_append.1 h with h | h
  · rcases List.mem_append.1 h with h | h
    · exact searchEvents_pre env provider e h
    · exact ragEvents_pre env provider e h
  · exact convCreatedEvents_pre env provider convId e h

theorem foldl_append_string (l : List String) :
    ∀ a : String, l.foldl (· ++ ·) a = a ++ joinChunks l := by
  induction l with
  | nil => intro a; simp [joinChunks, String.append_empty]
  | cons c rest ih =>
    intro a
    show List.foldl (· ++ ·) (a ++ c) rest = a ++ joinChunks (c :: rest)
    rw [ih (a ++ c)]
    show (a ++ c) ++ joinChunks rest = a ++ List.foldl (· ++ ·) ("" ++ c) rest
    rw [ih ("" ++ c), String.empty_append, String.append_assoc]

theorem joinChunks_cons (c : String) (l : List String) :
    joinChunks (c :: l) = c ++ joinChunks l := by
  show List.foldl (· ++ ·) ("" ++ c) l = c ++ joinChunks l
  rw [String.empty_append, foldl_append_string l c]

theorem joinChunks_length (l : List String) :
    (joinChunks l).length = (l.map String.length).sum := by
  induction l with
  | nil => simp [joinChunks]
  | cons c rest ih => rw [joinChunks_cons]; simp [ih]

/-- With the socket open throughout, a streaming loop delivers every chunk
in order and accumulates the full response. -/
theorem streamChunks_open (provider : String) (chunks : List String) :
    ∀ (idx : Nat) (acc : String) (evs : List Event),
      streamChunks none provider chunks idx acc evs =
        ⟨idx + chunks.length, acc ++ joinChunks chunks,
          evs ++ chunks.map (Event.streaming provider), false⟩ := by
  induction chunks with
  | nil =>
    intro idx acc evs
    simp [streamChunks, joinChunks, String.append_empty]
  | cons c rest ih =>
    intro idx acc evs
    show streamChunks none provider rest (idx + 1) (acc ++ c)
        (evs ++ [Event.streaming provider c]) = _
    rw [ih]
    have h1 : idx + 1 + rest.length = idx + (c :: rest).length := by
      simp only [List.length_cons]; omega
    have h2 : (acc ++ c) ++ joinChunks rest = acc ++ joinChunks (c :: rest) := by
      rw [joinChunks_cons, String.append_assoc]
    have h3 : (evs ++ [Event.streaming provider c]) ++
        rest.map (Event.streaming provider) =
        evs ++ (c :: rest).map (Event.streaming provider) := by
      simp
    rw [h1, h2, h3]

/-- Every event a streaming loop adds is a `streaming` event. -/
theorem streamChunks_events_mem (life : Option Nat) (provider : String)
    (chunks : List String) :
    ∀ (idx : Nat) (acc : String) (evs : List Event) (e : Event),
      e ∈ (streamChunks life provider chunks idx acc evs).events →
      e ∈ evs ∨ ∃ c, e = Event.streaming provider c := by
  induction chunks with
  | nil =>
    intro idx acc evs e h
    exact Or.inl (by simpa [streamChunks] using h)
  | cons c rest ih =>
    intro idx acc evs e h
    by_cases hc : connOpen life idx = true
    · simp only [streamChunks, hc, if_true] at h
      rcases ih _ _ _ _ h with h' | h'
      · rcases List.mem_append.1 h' with h'' | h''
        · exact Or.inl h''
        · exact Or.inr ⟨c, by simpa using h''⟩
      · exact h'.elim (fun c' hc' => Or.inr ⟨c', hc'⟩)
    · simp only [streamChunks, hc, if_false] at h
      exact Or.inl h

/-! ## C1: backup chain fallback order -/

theorem backupAttempts_front (candidates : List String) (ok : String → Bool) :
    backupAttempts candidates ok <+: candidates := by
  induction candidates with
  | nil => exact ⟨[], rfl⟩
  | cons p rest ih =>
    by_cases h : ok p = true
    · exact ⟨rest, by simp [backupAttempts, h]⟩
    · obtain ⟨t, ht⟩ := ih
      exact ⟨t, by simp [backupAttempts, h, ht]⟩

theorem not_mem_drop_indexOf (chain : List String) (failed : String)
    (hnd : chain.Nodup) (hmem : failed ∈ chain) :
    failed ∉ chain.drop (chain.indexOf failed + 1) := by
  induction chain with
  | nil => simp at hmem
  | cons a rest ih =>
    rcases List.nodup_cons.1 hnd with ⟨ha, hrest⟩
    by_cases h : a = failed
    · subst h
      rw [List.indexOf_cons_self]
      simpa using ha
    · have hm : failed ∈ rest := by
        rcases List.mem_cons.1 hmem with h' | h'
        · exact absurd h'.symm h
        · exact h'
      have hidx : (a :: rest).indexOf failed = rest.indexOf failed + 1 := by
        rw [List.indexOf_cons_ne _ h]
      rw [hidx, List.drop_succ_cons]
      exact ih hrest hm

/-- C1 (amended): when the failed provider occurs in the chain and the chain
has no duplicate entries, `_try_backup` inspects exactly the slice of the
chain strictly after the failed provider's position, tries its candidates in
chain order without ever wrapping around (the tried list is a prefix of that
forward slice), and never retries the failed provider within the turn. -/
theorem c1_fallback_forward_only (chain : List String) (failed : String)
    (ok : String → Bool) (hnd : chain.Nodup) (hmem : failed ∈ chain) :
    tryBackupCandidates chain failed = chain.drop (chain.indexOf failed + 1)
    ∧ failed ∉ backupAttempts (tryBackupCandidates chain failed) ok
    ∧ backupAttempts (tryBackupCandidates chain failed) ok <+:
        chain.drop (chain.indexOf failed + 1) := by
  have hcand : tryBackupCandidates chain failed =
      chain.drop (chain.indexOf failed + 1) := by
    unfold tryBackupCandidates
    rw [if_pos hmem]
  refine ⟨hcand, ?_, ?_⟩
  · intro hmemA
    have hsub : failed ∈ tryBackupCandidates chain failed :=
      (backupAttempts_front (tryBackupCandidates chain failed) ok).subset hmemA
    rw [hcand] at hsub
    exact not_mem_drop_indexOf chain failed hnd hmem hsub
  · rw [← hcand]
    exact backupAttempts_front _ ok

/-- C1 witness: a concrete duplicate-free chain. -/
theorem c1_fallback_forward_only_witness :
    (["claude", "openai", "gemini"] : List String).Nodup
    ∧ "claude" ∈ (["claude", "openai", "gemini"] : List String)
    ∧ (tryBackupCandidates ["claude", "openai", "gemini"] "claude" =
          (["claude", "openai", "gemini"] : List String).drop
            ((["claude", "openai", "gemini"] : List String).indexOf "claude" + 1)
        ∧ "claude" ∉ backupAttempts
            (tryBackupCandidates ["claude", "openai", "gemini"] "claude")
            (fun _ => false)
        ∧ backupAttempts
            (tryBackupCandidates ["claude", "openai", "gemini"] "claude")
            (fun _ => false) <+:
            (["claude", "openai", "gemini"] : List String).drop
              ((["claude", "openai", "gemini"] : List String).indexOf "claude" + 1)) :=
  ⟨by decide, by decide,
    c1_fallback_forward_only _ _ _ (by decide) (by decide)⟩

/-- C1 counterexample: with the configured chain `["claude", "claude"]`
(duplicates are not rejected anywhere), the fallback search after a failure
of `"claude"` tries `"claude"` again — the failed provider is retried within
the same turn, contradicting the claim as stated. -/
theorem c1_counterexample :
    "claude" ∈ backupAttempts
      (tryBackupCandidates ["claude", "claude"] "claude") (fun _ => true) := by
  decide

/-! ## C2: conversation-log cap -/

/-- C2 (amended): the user-message append (chat.py lines 431-435) trims to
the cap and drops exactly the oldest entries beyond it, but the assistant
append (line 526) does not trim, so after it the log can hold cap + 1
entries until the next turn's user append; `clear` and `load_conversation`
also mutate without trimming. -/
theorem c2_trim_on_user_append (hist : List Msg) (m : Msg) (resp : String) :
    appendAndTrim hist m =
      (hist ++ [m]).drop ((hist ++ [m]).length - MAX_HISTORY_MESSAGES)
    ∧ (appendAndTrim hist m).length ≤ MAX_HISTORY_MESSAGES
    ∧ (appendAssistant (appendAndTrim hist m) resp).length
        ≤ MAX_HISTORY_MESSAGES + 1 := by
  refine ⟨?_, appendAndTrim_length_le hist m, ?_⟩
  · unfold appendAndTrim
    by_cases h : MAX_HISTORY_MESSAGES < (hist ++ [m]).length
    · rw [if_pos h]
    · rw [if_neg h]
      have h0 : (hist ++ [m]).length - MAX_HISTORY_MESSAGES = 0 := by omega
      rw [h0, List.drop_zero]
  · have hle := appendAndTrim_length_le hist m
    simp only [appendAssistant, List.length_append, List.length_singleton]
    omega

/-- C2 counterexample: a log already at the cap (as left by any trimmed user
append) exceeds the cap after the assistant-message append, because chat.py
line 526 appends without trimming. -/
theorem c2_counterexample :
    (List.replicate MAX_HISTORY_MESSAGES
        (⟨Role.user, Content.text "hi"⟩ : Msg)).length ≤ MAX_HISTORY_MESSAGES
    ∧ ¬ ((appendAssistant
          (List.replicate MAX_HISTORY_MESSAGES
            (⟨Role.user, Content.text "hi"⟩ : Msg)) "ok").length
        ≤ MAX_HISTORY_MESSAGES) := by
  constructor
  · simp
  · simp [appendAssistant]

/-! ## C9: reset and removal of session usage -/

/-- C9: `reset_session` zeroes the stored totals while keeping the entry in
the session map, `remove_session` deletes the entry entirely, and a
`get_session` right after the reset returns the same zeroed entry. -/
theorem c9_reset_and_remove (st : TokenCounterState) (sid : String)
    (h : (lookupEntry st.sessions sid).isSome = true) :
    lookupEntry (st.resetSession sid).sessions sid = some SessionUsage.empty
    ∧ lookupEntry (st.removeSession sid).sessions sid = none
    ∧ ((st.resetSession sid).getSession sid).1 = SessionUsage.empty := by
  have h1 : lookupEntry (st.resetSession sid).sessions sid =
      some SessionUsage.empty := by
    unfold TokenCounterState.resetSession
    simp only
    rw [if_pos h]
    exact lookupEntry_setEntry_self _ _ _
  refine ⟨h1, ?_, ?_⟩
  · show lookupEntry (eraseEntry st.sessions sid) sid = none
    exact lookupEntry_eraseEntry_self _ _
  · unfold TokenCounterState.getSession
    rw [h1]

/-- C9 witness: a concrete counter with one live session. -/
theorem c9_reset_and_remove_witness :
    (lookupEntry
        (⟨[("s", ⟨1, 2, 3, (5 : ℚ), 4⟩)], []⟩ : TokenCounterState).sessions
        "s").isSome = true
    ∧ (lookupEntry
          ((⟨[("s", ⟨1, 2, 3, (5 : ℚ), 4⟩)], []⟩ : TokenCounterState).resetSession
            "s").sessions "s" = some SessionUsage.empty
        ∧ lookupEntry
            ((⟨[("s", ⟨1, 2, 3, (5 : ℚ), 4⟩)], []⟩ : TokenCounterState).removeSession
              "s").sessions "s" = none
        ∧ (((⟨[("s", ⟨1, 2, 3, (5 : ℚ), 4⟩)], []⟩ : TokenCounterState).resetSession
              "s").getSession "s").1 = SessionUsage.empty) :=
  ⟨by decide, c9_reset_and_remove _ "s" (by decide)⟩

/-! ## C6: session totals equal the sum of tracked records -/

/-- The operations a session's totals go through during its life: one
`track_usage` per completed turn (chat.py line 535) and one `reset_session`
per `clear_history` event (chat.py line 182). -/
inductive CounterOp
  | track (sid : String) (u : TokenUsage)
  | reset (sid : String)

/-- Apply one operation to the counter state. -/
def applyCounterOp (st : TokenCounterState) : CounterOp → TokenCounterState
  | CounterOp.track sid u => st.trackUsage sid u
  | CounterOp.reset sid => st.resetSession sid

/-- Run a sequence of operations. -/
def runCounterOps (st : TokenCounterState) (ops : List CounterOp) :
    TokenCounterState :=
  ops.foldl applyCounterOp st

/-- The usage records created for `sid` since its last reset. -/
def recordsSinceReset (sid : String) (acc : List TokenUsage) :
    List CounterOp → List TokenUsage
  | [] => acc
  | CounterOp.track s u :: rest =>
    recordsSinceReset sid (if s = sid then acc ++ [u] else acc) rest
  | CounterOp.reset s :: rest =>
    recordsSinceReset sid (if s = sid then [] else acc) rest

/-- Componentwise sums of a list of usage records. -/
def sumUsage (recs : List TokenUsage) : SessionUsage :=
  { totalInputTokens := (recs.map TokenUsage.inputTokens).sum
    totalOutputTokens := (recs.map TokenUsage.outputTokens).sum
    totalTokens := (recs.map TokenUsage.totalTokens).sum
    totalCost := (recs.map TokenUsage.totalCost).sum
    messageCount := recs.length }

theorem sumUsage_snoc (recs : List TokenUsage) (u : TokenUsage) :
    sumUsage (recs ++ [u]) = (sumUsage recs).add u := by
  simp [sumUsage, SessionUsage.add]

theorem getEntry_trackUsage_self (st : TokenCounterState) (sid : String)
    (u : TokenUsage) :
    (st.trackUsage sid u).getEntry sid = (st.getEntry sid).add u := by
  unfold TokenCounterState.trackUsage TokenCounterState.getEntry
  simp only
  rw [lookupEntry_setEntry_self]
  rfl

theorem getEntry_trackUsage_ne (st : TokenCounterState) (sid sid' : String)
    (u : TokenUsage) (h : sid' ≠ sid) :
    (st.trackUsage sid u).getEntry sid' = st.getEntry sid' := by
  unfold TokenCounterState.trackUsage TokenCounterState.getEntry
  simp only
  rw [lookupEntry_setEntry_ne _ _ _ _ h]

theorem getEntry_resetSession_self (st : TokenCounterState) (sid : String) :
    (st.resetSession sid).getEntry sid = SessionUsage.empty := by
  unfold TokenCounterState.resetSession TokenCounterState.getEntry
  simp only
  by_cases h : (lookupEntry st.sessions sid).isSome = true
  · rw [if_pos h, lookupEntry_setEntry_self]
    rfl
  · rw [if_neg h]
    rcases hl : lookupEntry st.sessions sid with _ | v
    · rfl
    · rw [hl] at h
      simp at h

theorem getEntry_resetSession_ne (st : TokenCounterState) (sid sid' : String)
    (h : sid' ≠ sid) :
    (st.resetSession sid).getEntry sid' = st.getEntry sid' := by
  unfold TokenCounterState.resetSession TokenCounterState.getEntry
  simp only
  by_cases hc : (lookupEntry st.sessions sid).isSome = true
  · rw [if_pos hc, lookupEntry_setEntry_ne _ _ _ _ h]
  · rw [if_neg hc]

theorem runCounterOps_getEntry (sid : String) (ops : List CounterOp) :
    ∀ (st : TokenCounterState) (acc : List TokenUsage),
      st.getEntry sid = sumUsage acc →
      (runCounterOps st ops).getEntry sid =
        sumUsage (recordsSinceReset sid acc ops) := by
  induction ops with
  | nil =>
    intro st acc h
    simpa [runCounterOps, recordsSinceReset] using h
  | cons op rest ih =>
    intro st acc h
    cases op with
    | track s u =>
      by_cases hs : s = sid
      · subst hs
        show (runCounterOps (st.trackUsage s u) rest).getEntry s =
          sumUsage (recordsSinceReset s (if s = s then acc ++ [u] else acc) rest)
        rw [if_pos rfl]
        exact ih _ _ (by rw [getEntry_trackUsage_self, h, sumUsage_snoc])
      · show (runCounterOps (st.trackUsage s u) rest).getEntry sid =
          sumUsage (recordsSinceReset sid (if s = sid then acc ++ [u] else acc) rest)
        rw [if_neg hs]
        exact ih _ _ (by rw [getEntry_trackUsage_ne _ _ _ _ (fun hc => hs hc.symm)]; exact h)
    | reset s =>
      by_cases hs : s = sid
      · subst hs
        show (runCounterOps (st.resetSession s) rest).getEntry s =
          sumUsage (recordsSinceReset s (if s = s then [] else acc) rest)
        rw [if_pos rfl]
        exact ih _ _ (by rw [getEntry_resetSession_self]; rfl)
      · show (runCounterOps (st.resetSession s) rest).getEntry sid =
          sumUsage (recordsSinceReset sid (if s = sid then [] else acc) rest)
        rw [if_neg hs]
        exact ih _ _ (by rw [getEntry_resetSession_ne _ _ _ (fun hc => hs hc.symm)]; exact h)

/-- C6: after any sequence of tracked turns and resets starting from a fresh
counter, each session's running totals (input/output tokens, total tokens,
total cost, message count) equal the componentwise sums over exactly the
usage records tracked for that session since its last reset. -/
theorem c6_session_totals (ops : List CounterOp) (sid : String) :
    (runCounterOps TokenCounterState.empty ops).getEntry sid =
      { totalInputTokens :=
          ((recordsSinceReset sid [] ops).map TokenUsage.inputTokens).sum
        totalOutputTokens :=
          ((recordsSinceReset sid [] ops).map TokenUsage.outputTokens).sum
        totalTokens :=
          ((recordsSinceReset sid [] ops).map TokenUsage.totalTokens).sum
        totalCost :=
          ((recordsSinceReset sid [] ops).map TokenUsage.totalCost).sum
        messageCount := (recordsSinceReset sid [] ops).length } :=
  runCounterOps_getEntry sid ops TokenCounterState.empty [] rfl

/-! ## C4: context assembly order -/

/-- C4 (amended): when both a RAG context and a web-search context are
available, the plain-text form stored in history and sent to the backend is
assembled in the fixed order search-results, then retrieved-passages, then
the (attachment-augmented) user text, each separated by a delimiter: the
code prepends the RAG context first (chat.py line 419) and then prepends
the web-search context in front of everything (line 425). -/
theorem c4_context_order (env : TurnEnv) (message : String)
    (attachments : List String)
    (hr : effectiveRagContext env ≠ "")
    (hs : effectiveSearchContext env ≠ "") :
    turnText env message attachments =
      effectiveSearchContext env ++ "\n\n---\n\n사용자 질문: " ++
        (effectiveRagContext env ++ "\n\n---\n\n" ++
          (buildMessageContent message attachments env.uploadedFiles).1) := by
  unfold turnText turnAssembly assembleTurn
  rcases hbm : buildMessageContent message attachments env.uploadedFiles with ⟨t0, mm0⟩
  simp only [hbm]
  unfold applyRagContext
  rw [if_neg hr]
  simp only
  unfold applySearchContext
  rw [if_neg hs]

/-- A concrete turn environment with both context sources available and the
socket open. -/
def envW : TurnEnv :=
  { searchIntent := some "q"
    searchHasResults := true
    searchContext := "WEB"
    ragEnabled := true
    ragSuccess := true
    ragContext := "RAG"
    uploadedFiles := []
    newConvId := none
    primaryChunks := []
    primaryFails := false
    primaryError := ""
    backupOutcome := none
    backupStreamFails := false
    backupStreamError := ""
    connLife := none
    models := []
    encode := fun _ => 0
    costRates := (0, 0) }

/-- C4 witness: the amended order at a concrete environment. -/
theorem c4_context_order_witness :
    effectiveRagContext envW ≠ ""
    ∧ effectiveSearchContext envW ≠ ""
    ∧ turnText envW "U" [] =
        effectiveSearchContext envW ++ "\n\n---\n\n사용자 질문: " ++
          (effectiveRagContext envW ++ "\n\n---\n\n" ++
            (buildMessageContent "U" [] envW.uploadedFiles).1) :=
  ⟨by decide, by decide, c4_context_order envW "U" [] (by decide) (by decide)⟩

/-- C4 counterexample: with retrieved passages "RAG" and search results
"WEB", the assembled text is `"WEB\n\n---\n\n사용자 질문: RAG\n\n---\n\nU"`:
it begins with the search-results part, not with the retrieved passages, so
the order claimed by the spec (retrieved-passages first) is false on the
code. -/
theorem c4_counterexample :
    turnText envW "U" [] = "WEB\n\n---\n\n사용자 질문: RAG\n\n---\n\nU"
    ∧ ∀ d1 d2 : String,
        turnText envW "U" [] ≠ "RAG" ++ d1 ++ "WEB" ++ d2 ++ "U" := by
  refine ⟨rfl, ?_⟩
  intro d1 d2 h
  have hd : (turnText envW "U" []).data.head? =
      ("RAG" ++ d1 ++ "WEB" ++ d2 ++ "U").data.head? := by rw [h]
  have h2 : (some 'W' : Option Char) = some 'R' := hd
  have h3 : ('W' : Char) = 'R' := Option.some.inj h2
  exact absurd h3 (by decide)

/-! ## C7: empty input rejected without mutation -/

/-- C7: a chat event whose message is empty or whitespace-only and whose
attachment list is empty is rejected with exactly one `error` event (while
the socket is open) and neither the conversation log nor the usage state is
mutated (chat.py lines 314-319). -/
theorem c7_empty_input (g : ChatGlobals) (env : TurnEnv)
    (provider message sessionId : String)
    (hmsg : (pyStrip message).isEmpty = true)
    (hopen : connOpen env.connLife 0 = true) :
    processChat g env provider message [] sessionId =
      { events := [Event.error provider "Empty message"]
        history := g.history
        counter := g.counter
        convId := g.convId
        request := []
        disconnected := false } := by
  unfold processChat
  rw [show ((pyStrip message).isEmpty && List.isEmpty ([] : List String)) = true by
    rw [hmsg]; rfl]
  simp [sendIf, hopen]

/-- C7 witness: a whitespace-only message on a live socket. -/
theorem c7_empty_input_witness :
    (pyStrip "  ").isEmpty = true
    ∧ connOpen envW.connLife 0 = true
    ∧ processChat ⟨[], none, TokenCounterState.empty⟩ envW "claude" "  " [] "s" =
        { events := [Event.error "claude" "Empty message"]
          history := []
          counter := TokenCounterState.empty
          convId := none
          request := []
          disconnected := false } :=
  ⟨by decide, by decide,
    c7_empty_input ⟨[], none, TokenCounterState.empty⟩ envW "claude" "  " "s"
      (by decide) (by decide)⟩

/-! ## C5: multimodal form is in-flight only -/

theorem finishTurn_request (g : ChatGlobals) (env : TurnEnv)
    (message sessionId actualProvider : String) (request hist1 : List Msg)
    (convId1 : Option String) (preEvents : List Event) (fullResponse : String)
    (idx : Nat) :
    (finishTurn g env message sessionId actualProvider request hist1 convId1
      preEvents fullResponse idx).request = request := by
  unfold finishTurn
  split <;> rfl

theorem runStream_request (g : ChatGlobals) (env : TurnEnv)
    (provider message sessionId : String) (hist1 request : List Msg)
    (pre : List Event) (convId1 : Option String) :
    (runStream g env provider message sessionId hist1 request pre
      convId1).request = request := by
  unfold runStream
  dsimp only
  repeat' split
  all_goals first
  | rfl
  | apply finishTurn_request

theorem applyRagContext_snd_none (r t : String) :
    (applyRagContext r t none).2 = none := by
  unfold applyRagContext
  split <;> rfl

theorem applySearchContext_snd_none (s t : String) :
    (applySearchContext s t none).2 = none := by
  unfold applySearchContext
  split <;> rfl

theorem turnMM_nil (env : TurnEnv) (message : String) :
    turnMM env message [] = none := by
  unfold turnMM turnAssembly assembleTurn buildMessageContent
  by_cases hr : effectiveRagContext env = "" <;>
    by_cases hs : effectiveSearchContext env = "" <;>
      simp [applyRagContext, applySearchContext, hr, hs]

/-- C5: when the turn's user message has a multimodal form, the outgoing
request replaces only the most recent message with that form, while the
conversation log permanently stores the plain-text form as its last entry,
the earlier stored messages being exactly a suffix of the prior log. -/
theorem c5_multimodal_in_flight_only (g : ChatGlobals) (env : TurnEnv)
    (provider message sessionId : String) (attachments : List String)
    (mmParts : List MMPart)
    (hmm : turnMM env message attachments = some mmParts) :
    (processChat g env provider message attachments sessionId).request =
      sysMsg :: ((turnHistory g env message attachments).dropLast
        ++ [⟨Role.user, Content.parts mmParts⟩])
    ∧ (turnHistory g env message attachments).getLast? =
        some (turnUserMsg env message attachments)
    ∧ (turnHistory g env message attachments).dropLast <:+ g.history := by
  have hatt : attachments ≠ [] := by
    intro hnil
    subst hnil
    rw [turnMM_nil] at hmm
    cases hmm
  have hguard : ((pyStrip message).isEmpty && attachments.isEmpty) = false := by
    have : attachments.isEmpty = false := by
      cases attachments with
      | nil => exact absurd rfl hatt
      | cons a l => rfl
    rw [this, Bool.and_false]
  have hAT : turnHistory g env message attachments =
      g.history.drop (g.history.length + 1 - MAX_HISTORY_MESSAGES) ++
        [turnUserMsg env message attachments] := by
    unfold turnHistory
    exact appendAndTrim_eq g.history (turnUserMsg env message attachments)
  refine ⟨?_, ?_, ?_⟩
  · unfold processChat
    rw [if_neg (by rw [hguard]; exact Bool.false_ne_true)]
    rw [runStream_request]
    unfold buildRequest
    rw [hmm]
  · rw [hAT]
    exact List.getLast?_concat _
  · rw [hAT, List.dropLast_concat]
    exact List.drop_suffix _ _

/-- A concrete environment carrying one image attachment and no optional
context. -/
def envM : TurnEnv :=
  { envW with
      searchIntent := none
      ragEnabled := false
      uploadedFiles := [("img.png", ⟨true, false, "image/png", "B64", ""⟩)] }

/-- C5 witness: a turn with an image attachment. -/
theorem c5_multimodal_in_flight_only_witness :
    turnMM envM "hi" ["img.png"] =
      some [MMPart.textPart "[Image: img.png]\n\n---\n\nhi",
            MMPart.imagePart "data:image/png;base64,B64"]
    ∧ ((processChat ⟨[], none, TokenCounterState.empty⟩ envM "claude" "hi"
          ["img.png"] "s").request =
        sysMsg :: ((turnHistory ⟨[], none, TokenCounterState.empty⟩ envM "hi"
            ["img.png"]).dropLast
          ++ [⟨Role.user, Content.parts
                [MMPart.textPart "[Image: img.png]\n\n---\n\nhi",
                 MMPart.imagePart "data:image/png;base64,B64"]⟩])
      ∧ (turnHistory ⟨[], none, TokenCounterState.empty⟩ envM "hi"
            ["img.png"]).getLast? = some (turnUserMsg envM "hi" ["img.png"])
      ∧ (turnHistory ⟨[], none, TokenCounterState.empty⟩ envM "hi"
            ["img.png"]).dropLast <:+
          (⟨[], none, TokenCounterState.empty⟩ : ChatGlobals).history) :=
  ⟨by decide,
    c5_multimodal_in_flight_only ⟨[], none, TokenCounterState.empty⟩ envM
      "claude" "hi" "s" ["img.png"] _ (by decide)⟩

/-! ## C8: mid-stream disconnect abandons the turn -/

theorem finishTurn_disconnected (g : ChatGlobals) (env : TurnEnv)
    (message sessionId actualProvider : String) (request hist1 : List Msg)
    (convId1 : Option String) (preEvents : List Event) (fullResponse : String)
    (idx : Nat) :
    (finishTurn g env message sessionId actualProvider request hist1 convId1
      preEvents fullResponse idx).disconnected = false := by
  unfold finishTurn
  split <;> rfl

theorem streamChunks_countP_zero (pred : Event → Bool)
    (hstream : ∀ p c, pred (Event.streaming p c) = false)
    (life : Option Nat) (provider : String) (chunks : List String)
    (idx : Nat) (acc : String) :
    ((streamChunks life provider chunks idx acc []).events.countP pred) = 0 := by
  apply List.countP_eq_zero.2
  intro e he
  rcases streamChunks_events_mem life provider chunks idx acc [] e he with h | ⟨c, rfl⟩
  · simp at h
  · simp [hstream provider c]

theorem sendIf_switch_countP (pred : Event → Bool)
    (hsw : ∀ o b r, pred (Event.backupSwitch o b r) = false)
    (b : Bool) (o bk r : String) :
    ((sendIf b [Event.backupSwitch o bk r]).countP pred) = 0 := by
  unfold sendIf
  split
  · simp [hsw]
  · rfl

theorem runStream_disconnected (g : ChatGlobals) (env : TurnEnv)
    (provider message sessionId : String) (hist1 request : List Msg)
    (pre : List Event) (convId1 : Option String)
    (hpre : ∀ e ∈ pre, isPreEvent e = true) :
    (runStream g env provider message sessionId hist1 request pre
        convId1).disconnected = true →
      (runStream g env provider message sessionId hist1 request pre
          convId1).events.countP isCompleteEvent = 0
      ∧ (runStream g env provider message sessionId hist1 request pre
          convId1).history = hist1
      ∧ (runStream g env provider message sessionId hist1 request pre
          convId1).counter = g.counter := by
  have hpre0 : pre.countP isCompleteEvent = 0 :=
    List.countP_eq_zero.2 (fun e he => by
      simp [isPreEvent_not_complete e (hpre e he)])
  have hs0 : ∀ (p : String) (chunks : List String) (idx : Nat) (acc : String),
      ((streamChunks env.connLife p chunks idx acc []).events.countP
        isCompleteEvent) = 0 :=
    fun p chunks idx acc =>
      streamChunks_countP_zero isCompleteEvent (fun _ _ => rfl)
        env.connLife p chunks idx acc
  have hsw0 : ∀ (b : Bool) (o bk r : String),
      ((sendIf b [Event.backupSwitch o bk r]).countP isCompleteEvent) = 0 :=
    sendIf_switch_countP isCompleteEvent (fun _ _ _ => rfl)
  unfold runStream
  dsimp only
  repeat' split
  all_goals intro hdc
  all_goals try (rw [finishTurn_disconnected] at hdc)
  all_goals first
  | exact Bool.noConfusion hdc
  | (refine ⟨?_, rfl, rfl⟩
     simp only [List.countP_append, hpre0, hs0, hsw0, Nat.add_zero,
       Nat.zero_add])

/-- C8: a turn abandoned because the output socket was detected closed
between chunks emits no `complete` event, appends no assistant message (the
log holds exactly the user append of that turn), leaves the usage state
untouched, and the disconnect handler then removes the session's usage
entry. -/
theorem c8_disconnect_abandons (g : ChatGlobals) (env : TurnEnv)
    (provider message sessionId : String) (attachments : List String)
    (hdc : (processChat g env provider message attachments
      sessionId).disconnected = true) :
    (processChat g env provider message attachments
        sessionId).events.countP isCompleteEvent = 0
    ∧ (processChat g env provider message attachments sessionId).history =
        turnHistory g env message attachments
    ∧ (processChat g env provider message attachments sessionId).counter =
        g.counter
    ∧ lookupEntry
        (disconnectCleanup
          (processChat g env provider message attachments sessionId).counter
          sessionId).sessions sessionId = none := by
  by_cases hg : ((pyStrip message).isEmpty && attachments.isEmpty) = true
  · unfold processChat at hdc
    rw [if_pos hg] at hdc
    exact Bool.noConfusion hdc
  · have hrw : processChat g env provider message attachments sessionId =
        runStream g env provider message sessionId
          (turnHistory g env message attachments)
          (buildRequest env message attachments
            (turnHistory g env message attachments))
          (preStreamEvents env provider g.convId) (nextConvId env g.convId) := by
      unfold processChat
      rw [if_neg hg]
    rw [hrw] at hdc ⊢
    have h3 := runStream_disconnected g env provider message sessionId
      (turnHistory g env message attachments)
      (buildRequest env message attachments
        (turnHistory g env message attachments))
      (preStreamEvents env provider g.convId) (nextConvId env g.convId)
      (preStreamEvents_isPre env provider g.convId) hdc
    refine ⟨h3.1, h3.2.1, h3.2.2, ?_⟩
    show lookupEntry (eraseEntry _ sessionId) sessionId = none
    exact lookupEntry_eraseEntry_self _ _

/-- A concrete environment whose socket closes after the first streamed
chunk. -/
def envD : TurnEnv :=
  { envW with connLife := some 1, primaryChunks := ["a", "b"] }

/-- C8 witness: the socket closes between the first and second chunk. -/
theorem c8_disconnect_abandons_witness :
    (processChat ⟨[], none, TokenCounterState.empty⟩ envD "claude" "hi" []
        "s").disconnected = true
    ∧ ((processChat ⟨[], none, TokenCounterState.empty⟩ envD "claude" "hi" []
          "s").events.countP isCompleteEvent = 0
      ∧ (processChat ⟨[], none, TokenCounterState.empty⟩ envD "claude" "hi" []
          "s").history =
          turnHistory ⟨[], none, TokenCounterState.empty⟩ envD "hi" []
      ∧ (processChat ⟨[], none, TokenCounterState.empty⟩ envD "claude" "hi" []
          "s").counter = (⟨[], none, TokenCounterState.empty⟩ : ChatGlobals).counter
      ∧ lookupEntry
          (disconnectCleanup
            (processChat ⟨[], none, TokenCounterState.empty⟩ envD "claude" "hi"
              [] "s").counter "s").sessions "s" = none) :=
  ⟨by decide,
    c8_disconnect_abandons ⟨[], none, TokenCounterState.empty⟩ envD "claude"
      "hi" "s" [] (by decide)⟩

/-! ## C3: exhausted backup chain -/

theorem runStream_exhausted (g : ChatGlobals) (env : TurnEnv)
    (provider message sessionId : String) (hist1 request : List Msg)
    (pre : List Event) (convId1 : Option String)
    (hpre : ∀ e ∈ pre, isPreEvent e = true)
    (hlife : env.connLife = none)
    (hfail : env.primaryFails = true)
    (hexh : env.backupOutcome = none) :
    (runStream g env provider message sessionId hist1 request pre
        convId1).events.countP isErrorEvent = 1
    ∧ (runStream g env provider message sessionId hist1 request pre
        convId1).history = hist1
    ∧ (runStream g env provider message sessionId hist1 request pre
        convId1).counter = g.counter := by
  have hpre0 : pre.countP isErrorEvent = 0 :=
    List.countP_eq_zero.2 (fun e he => by
      simp [isPreEvent_not_error e (hpre e he)])
  have hmap0 : (env.primaryChunks.map (Event.streaming provider)).countP
      isErrorEvent = 0 :=
    List.countP_eq_zero.2 (by
      intro e he
      rcases List.mem_map.1 he with ⟨c, -, rfl⟩
      simp [isErrorEvent])
  unfold runStream
  rw [hlife, streamChunks_open]
  dsimp only
  rw [if_neg Bool.false_ne_true, hfail, if_pos rfl,
    if_pos (show connOpen none (0 + env.primaryChunks.length) = true from rfl),
    hexh]
  refine ⟨?_, rfl, rfl⟩
  show ((pre ++ ([] ++ env.primaryChunks.map (Event.streaming provider)) ++
      sendIf (connOpen none (0 + env.primaryChunks.length))
        [Event.error provider "All backup providers failed"]).countP
    isErrorEvent) = 1
  rw [List.countP_append, List.countP_append]
  rw [List.nil_append, hpre0, hmap0]
  rfl

/-- C3: when the primary provider fails and every backup after it in the
chain also fails (`_try_backup` raises `RuntimeError`), the caller receives
exactly one `error` event for the turn and no assistant message is appended
— the log holds exactly the turn's user append. -/
theorem c3_chain_exhausted (g : ChatGlobals) (env : TurnEnv)
    (provider message sessionId : String) (attachments : List String)
    (hguard : ((pyStrip message).isEmpty && attachments.isEmpty) = false)
    (hlife : env.connLife = none)
    (hfail : env.primaryFails = true)
    (hexh : env.backupOutcome = none) :
    (processChat g env provider message attachments sessionId).events.countP
        isErrorEvent = 1
    ∧ (processChat g env provider message attachments sessionId).history =
        turnHistory g env message attachments := by
  have hrw : processChat g env provider message attachments sessionId =
      runStream g env provider message sessionId
        (turnHistory g env message attachments)
        (buildRequest env message attachments
          (turnHistory g env message attachments))
        (preStreamEvents env provider g.convId) (nextConvId env g.convId) := by
    unfold processChat
    rw [if_neg (by rw [hguard]; exact Bool.false_ne_true)]
  rw [hrw]
  have h := runStream_exhausted g env provider message sessionId
    (turnHistory g env message attachments)
    (buildRequest env message attachments
      (turnHistory g env message attachments))
    (preStreamEvents env provider g.convId) (nextConvId env g.convId)
    (preStreamEvents_isPre env provider g.convId) hlife hfail hexh
  exact ⟨h.1, h.2.1⟩

/-- A concrete environment where the primary fails and the chain is
exhausted. -/
def envX : TurnEnv := { envW with primaryFails := true }

/-- C3 witness: primary failure with an exhausted chain on a live socket. -/
theorem c3_chain_exhausted_witness :
    ((pyStrip "hi").isEmpty && List.isEmpty ([] : List String)) = false
    ∧ envX.connLife = none
    ∧ envX.primaryFails = true
    ∧ envX.backupOutcome = none
    ∧ ((processChat ⟨[], none, TokenCounterState.empty⟩ envX "claude" "hi" []
          "s").events.countP isErrorEvent = 1
      ∧ (processChat ⟨[], none, TokenCounterState.empty⟩ envX "claude" "hi" []
          "s").history =
          turnHistory ⟨[], none, TokenCounterState.empty⟩ envX "hi" []) :=
  ⟨by decide, rfl, rfl, rfl,
    c3_chain_exhausted ⟨[], none, TokenCounterState.empty⟩ envX "claude" "hi"
      "s" [] (by decide) rfl rfl rfl⟩

/-! ## C10: partial primary output is kept across fallback -/

theorem string_eq_empty_of_length (s : String) (h : s.length = 0) : s = "" := by
  apply String.ext
  have h2 : s.data.length = 0 := h
  simpa using List.length_eq_zero.1 h2

theorem joinChunks_ne_empty (l : List String) (c : String) (hc : c ∈ l)
    (hne : c ≠ "") : joinChunks l ≠ "" := by
  intro h
  have hlen := congrArg String.length h
  rw [joinChunks_length] at hlen
  have hz : ∀ x ∈ l.map String.length, x = 0 :=
    List.sum_eq_zero_iff.1 (by simpa using hlen)
  have hc0 : c.length = 0 := hz _ (List.mem_map_of_mem _ hc)
  exact hne (string_eq_empty_of_length c hc0)

theorem append_ne_right_of_ne_empty (a b : String) (ha : a ≠ "") :
    a ++ b ≠ b := by
  intro h
  have hlen := congrArg String.length h
  rw [String.length_append] at hlen
  exact ha (string_eq_empty_of_length a (by omega))

theorem runStream_backup_success (g : ChatGlobals) (env : TurnEnv)
    (provider message sessionId : String) (hist1 request : List Msg)
    (pre : List Event) (convId1 : Option String)
    (backupName : String) (backupChunks : List String)
    (hlife : env.connLife = none)
    (hfail : env.primaryFails = true)
    (hbk : env.backupOutcome = some (backupName, backupChunks))
    (hbs : env.backupStreamFails = false)
    (hne : ¬ (joinChunks env.primaryChunks ++ joinChunks backupChunks = "")) :
    (runStream g env provider message sessionId hist1 request pre
        convId1).history =
      appendAssistant hist1
        (joinChunks env.primaryChunks ++ joinChunks backupChunks) := by
  unfold runStream
  rw [hlife, streamChunks_open]
  dsimp only
  rw [if_neg Bool.false_ne_true, hfail, if_pos rfl,
    if_pos (show connOpen none (0 + env.primaryChunks.length) = true from rfl),
    hbk]
  dsimp only
  rw [streamChunks_open]
  dsimp only
  rw [if_neg Bool.false_ne_true, hbs, if_neg Bool.false_ne_true]
  unfold finishTurn
  rw [if_neg (by rw [String.empty_append]; exact hne)]
  dsimp only
  rw [String.empty_append]

/-- C10: when the primary stream fails after emitting chunks (the router
yields only non-empty string chunks) and a backup provider then succeeds,
the assistant message appended to the log is the concatenation of the
primary's partial chunks followed by the backup's full output — not the
backup's output alone. -/
theorem c10_partial_then_backup (g : ChatGlobals) (env : TurnEnv)
    (provider message sessionId c : String) (attachments : List String)
    (backupName : String) (backupChunks : List String)
    (hguard : ((pyStrip message).isEmpty && attachments.isEmpty) = false)
    (hlife : env.connLife = none)
    (hfail : env.primaryFails = true)
    (hbk : env.backupOutcome = some (backupName, backupChunks))
    (hbs : env.backupStreamFails = false)
    (hc : c ∈ env.primaryChunks) (hcne : c ≠ "") :
    (processChat g env provider message attachments sessionId).history =
      appendAssistant (turnHistory g env message attachments)
        (joinChunks env.primaryChunks ++ joinChunks backupChunks)
    ∧ joinChunks env.primaryChunks ++ joinChunks backupChunks ≠
        joinChunks backupChunks := by
  have hpne : joinChunks env.primaryChunks ≠ "" :=
    joinChunks_ne_empty _ c hc hcne
  have hne : ¬ (joinChunks env.primaryChunks ++ joinChunks backupChunks = "") := by
    intro h
    have hlen := congrArg String.length h
    rw [String.length_append] at hlen
    simp only [String.length_empty] at hlen
    exact hpne (string_eq_empty_of_length _ (by omega))
  have hrw : processChat g env provider message attachments sessionId =
      runStream g env provider message sessionId
        (turnHistory g env message attachments)
        (buildRequest env message attachments
          (turnHistory g env message attachments))
        (preStreamEvents env provider g.convId) (nextConvId env g.convId) := by
    unfold processChat
    rw [if_neg (by rw [hguard]; exact Bool.false_ne_true)]
  rw [hrw]
  refine ⟨?_, append_ne_right_of_ne_empty _ _ hpne⟩
  exact runStream_backup_success g env provider message sessionId
    (turnHistory g env message attachments)
    (buildRequest env message attachments
      (turnHistory g env message attachments))
    (preStreamEvents env provider g.convId) (nextConvId env g.convId)
    backupName backupChunks hlife hfail hbk hbs hne

/-- A concrete environment where the primary emits two chunks then fails,
and the backup succeeds. -/
def envB : TurnEnv :=
  { envW with
      primaryFails := true
      primaryChunks := ["Hel", "lo"]
      backupOutcome := some ("anthropic", [" wor", "ld"]) }

/-- C10 witness: concrete partial primary output followed by backup
output. -/
theorem c10_partial_then_backup_witness :
    ((pyStrip "hi").isEmpty && List.isEmpty ([] : List String)) = false
    ∧ "Hel" ∈ envB.primaryChunks
    ∧ ((processChat ⟨[], none, TokenCounterState.empty⟩ envB "claude" "hi" []
          "s").history =
        appendAssistant
          (turnHistory ⟨[], none, TokenCounterState.empty⟩ envB "hi" [])
          (joinChunks envB.primaryChunks ++ joinChunks [" wor", "ld"])
      ∧ joinChunks envB.primaryChunks ++ joinChunks [" wor", "ld"] ≠
          joinChunks [" wor", "ld"]) :=
  ⟨by decide, by decide,
    c10_partial_then_backup ⟨[], none, TokenCounterState.empty⟩ envB "claude"
      "hi" "s" "Hel" [] "anthropic" [" wor", "ld"] (by decide) rfl rfl rfl rfl
      (by decide) (by decide)⟩

end AgentGaia
